import Mathlib

/-!
Shallow embedding of the rmtool rendering core (package render, package
rmtool) for verification. Definitions are translated from the Go source:
`pkg/render/context.go` (brush/palette/sprite handling), the `.content`
metadata file model with `Content.Validate`, and the PDF assembly in the
render package (`renderPdf`, `PdfPage`, `drawingsPdf`, `doRenderPdfPage`,
`drawingToPdf`, `setupPdf`).  Parts of the repository that are referenced
but whose source is not available here (the `lines` data model, the brush
stamping implementations, `renderPNG`, `overlayPdf`, `loadBasePen`,
`imaging.CreateMask`, `rmtool.Document`) are modelled from the spec and
marked as such in their doc comments.
-/

namespace RMTool

/-- Model of Go `image/color.Color` values used by the renderer: the
standard black/white values and RGBA literals. -/
inductive RColor where
  | stdBlack : RColor
  | stdWhite : RColor
  | rgba : Nat → Nat → Nat → Nat → RColor
deriving DecidableEq, Repr

/-- Model of Go `image.Rectangle` (Min/Max points, integer pixels). -/
structure Rect where
  minX : Int
  minY : Int
  maxX : Int
  maxY : Int
deriving DecidableEq, Repr

/-- Go `Rectangle.Dx`: width. -/
def Rect.Dx (r : Rect) : Int := r.maxX - r.minX

/-- Go `Rectangle.Dy`: height. -/
def Rect.Dy (r : Rect) : Int := r.maxY - r.minY

/-- Go `Rectangle.Empty`. -/
def Rect.Empty (r : Rect) : Bool := r.minX ≥ r.maxX || r.minY ≥ r.maxY

/-- Go `image.Rect(x0, y0, x1, y1)`: canonicalizes by swapping a min/max
pair that is out of order. -/
def imageRect (x0 y0 x1 y1 : Int) : Rect :=
  let p := if x0 > x1 then (x1, x0) else (x0, x1)
  let q := if y0 > y1 then (y1, y0) else (y0, y1)
  ⟨p.1, q.1, p.2, q.2⟩

/-- Go `Rectangle.Intersect`: clip both rectangles to their common area;
an empty intersection is the zero rectangle. -/
def Rect.Intersect (r s : Rect) : Rect :=
  let t : Rect := ⟨max r.minX s.minX, max r.minY s.minY,
                   min r.maxX s.maxX, min r.maxY s.maxY⟩
  if t.Empty then ⟨0, 0, 0, 0⟩ else t

/-- Go `Rectangle.In`: whether `r` is entirely inside `s` (an empty
rectangle is inside everything). -/
def Rect.In (r s : Rect) : Bool :=
  if r.Empty then true
  else s.minX ≤ r.minX && r.maxX ≤ s.maxX && s.minY ≤ r.minY && r.maxY ≤ s.maxY

/-- Modelled from the spec: the `lines` package brush-kind enumeration is
not in the available source; these are exactly the kinds named by the
`brushNames` table in context.go, plus `other` for every remaining
integer value of the Go `lines.BrushType`. -/
inductive BrushType where
  | Ballpoint | BallpointV5
  | Pencil | PencilV5
  | MechanicalPencil | MechanicalPencilV5
  | Marker | MarkerV5
  | Fineliner | FinelinerV5
  | Highlighter | HighlighterV5
  | PaintBrush | PaintBrushV5
  | CalligraphyV5
  | other : Nat → BrushType
deriving DecidableEq, Repr

/-- Modelled from the spec: the `lines` package brush-color enumeration is
not in the available source; black/gray/white are the keys of
`defaultColors` in context.go, `other` covers every remaining integer
value of the Go `lines.BrushColor`. -/
inductive BrushColor where
  | Black | Gray | White
  | other : Nat → BrushColor
deriving DecidableEq, Repr

/-- The `brushNames` table of context.go.  A Go map lookup for a missing
key yields the zero value, the empty string. -/
def brushNames : BrushType → String
  | .Ballpoint => "ballpoint"
  | .BallpointV5 => "ballpoint"
  | .Pencil => "pencil"
  | .PencilV5 => "pencil"
  | .MechanicalPencil => "mech-pencil"
  | .MechanicalPencilV5 => "mech-pencil"
  | .Marker => "marker"
  | .MarkerV5 => "marker"
  | .Fineliner => "fineliner"
  | .FinelinerV5 => "fineliner"
  | .Highlighter => "highlighter"
  | .HighlighterV5 => "highlighter"
  | .PaintBrush => "ballpoint"
  | .PaintBrushV5 => "ballpoint"
  | .CalligraphyV5 => "ballpoint"
  | .other _ => ""

/-- The `defaultColors` table of context.go: `color.Black`,
`color.RGBA{150,150,150,255}`, `color.White`; a missing key yields the
zero value of an interface, nil, modelled as `none`. -/
def defaultColors : BrushColor → Option RColor
  | .Black => some .stdBlack
  | .Gray => some (.rgba 150 150 150 255)
  | .White => some .stdWhite
  | .other _ => none

/-- The `Palette` struct of context.go.  The Go map
`map[lines.BrushColor]color.Color` is modelled as a lookup function:
`none` means the key is absent; `some v` means the key is present with
stored interface value `v` (which may itself be the nil interface,
`none`). -/
structure Palette where
  Background : RColor
  Highlighter : RColor
  colors : BrushColor → Option (Option RColor)

/-- Function `NewPalette` of context.go. -/
def NewPalette (bg highlighter : RColor)
    (brushColors : BrushColor → Option (Option RColor)) : Palette :=
  ⟨bg, highlighter, brushColors⟩

/-- Function `Palette.Color` of context.go: return the caller-supplied mapping's
value when the key is present, else the built-in default. -/
def Palette.Color (p : Palette) (bc : BrushColor) : Option RColor :=
  match p.colors bc with
  | some c => c
  | none => defaultColors bc

/-- The result of Go `RGBA.SubImage`: a read-only view of the atlas,
identified by its (already clipped) rectangle. -/
structure SubImg where
  rect : Rect
deriving DecidableEq, Repr

/-- Go `RGBA.SubImage(r)`: clip `r` against the image bounds; an empty
intersection yields the zero image. -/
def subImage (bounds r : Rect) : SubImg :=
  ⟨r.Intersect bounds⟩

/-- Modelled from the spec: `imaging.CreateMask` (internal/imaging, not in
the available source) turns the sprite sub-image into an alpha mask used
for stamping; the model keeps the sub-image it was built from. -/
structure Mask where
  img : SubImg
deriving DecidableEq, Repr

/-- Modelled from the spec: `imaging.CreateMask` wraps the sub-image. -/
def CreateMask (img : SubImg) : Mask := ⟨img⟩

/-- The `Context` struct of context.go, in its state after
`lazyLoadSpritesheet` has been attempted: `sheetErr` is the I/O or decode
failure of the lazy spritesheet load, if any; `spriteIndex` is the decoded
sprites.json map (`none` = key absent or JSON null); `spritesBounds` is
`c.sprites.Bounds()`.  The template cache plays no part in the claims and
is omitted. -/
structure Context where
  palette : Palette
  sheetErr : Option String
  spriteIndex : String → Option (List Int)
  spritesBounds : Rect

/-- Function `Context.loadBrushMask` of context.go: after the lazy spritesheet
load, look up the named sprite entry, require exactly four integers,
build the rectangle, and reject it only when its width or height exceeds
the spritesheet's width or height; otherwise hand out the sub-image
(which Go's `SubImage` clips against the atlas bounds). -/
def Context.loadBrushMask (c : Context) (name : String) : Except String SubImg :=
  match c.sheetErr with
  | some e => .error e
  | none =>
    match c.spriteIndex name with
    | none => .error ("no sprite image for brush " ++ name)
    | some idx =>
      if h : idx.length = 4 then
        let rect := imageRect idx[0] idx[1] idx[2] idx[3]
        if rect.Dx > c.spritesBounds.Dx || rect.Dy > c.spritesBounds.Dy then
          .error "sprite bounds not within spritesheet dimensions"
        else
          .ok (subImage c.spritesBounds rect)
      else .error ("invalid sprite entry for brush " ++ name)

/-- The Brush implementations built by `Context.loadBrush`.  Each Go
struct's `fill` field is `image.NewUniform(col)`; the model stores the
uniform's color. -/
inductive Brush where
  | Ballpoint (mask : Mask) (fill : RColor) (color : RColor)
  | Pencil (mask : Mask) (fill : RColor)
  | MechanicalPencil (mask : Mask) (fill : RColor)
  | Marker (mask : Mask) (fill : RColor)
  | Fineliner (mask : Mask) (fill : RColor) (color : RColor)
  | Highlighter (mask : Mask) (fill : RColor)
  | Paintbrush (fill : RColor)
  | BasePen (mask : Mask) (fill : RColor)
deriving DecidableEq, Repr

/-- The uniform fill color of a brush. -/
def Brush.fill : Brush → RColor
  | .Ballpoint _ f _ => f
  | .Pencil _ f => f
  | .MechanicalPencil _ f => f
  | .Marker _ f => f
  | .Fineliner _ f _ => f
  | .Highlighter _ f => f
  | .Paintbrush f => f
  | .BasePen _ f => f

/-- Modelled from the spec: `loadBasePen` (not in the available source)
builds the fixed-width, fixed-opacity fallback pen from the resolved mask
and color. -/
def loadBasePen (mask : Mask) (col : RColor) : Brush := .BasePen mask col

/-- Function `Context.loadBrush` of context.go: resolve the color via the palette
(nil is an error), map the kind through `brushNames` (empty string is an
error), load the named mask, then build the kind's brush variant; kinds
with a table entry but no dedicated variant fall back to the base pen.
Error messages keep the Go format-string prefixes. -/
def Context.loadBrush (c : Context) (bt : BrushType) (bc : BrushColor) :
    Except String Brush :=
  match c.palette.Color bc with
  | none => .error "invalid color"
  | some col =>
    let name := brushNames bt
    if name = "" then .error "unsupported brush type"
    else
      match c.loadBrushMask name with
      | .error e => .error e
      | .ok img =>
        let mask := CreateMask img
        match bt with
        | .Ballpoint | .BallpointV5 => .ok (.Ballpoint mask col col)
        | .Pencil | .PencilV5 => .ok (.Pencil mask col)
        | .MechanicalPencil | .MechanicalPencilV5 => .ok (.MechanicalPencil mask col)
        | .Marker | .MarkerV5 => .ok (.Marker mask col)
        | .Fineliner | .FinelinerV5 => .ok (.Fineliner mask col col)
        | .Highlighter | .HighlighterV5 => .ok (.Highlighter mask c.palette.Highlighter)
        | .PaintBrush | .PaintBrushV5 => .ok (.Paintbrush col)
        | _ => .ok (loadBasePen mask col)

/-- The two core error kinds of the rmtool package; `Content.Validate`
only ever builds errors via `errors.NewValidationError`. -/
inductive Err where
  | ValidationError (msg : String)
deriving DecidableEq, Repr

/-- The `FileType` enumeration of the rmtool package (Notebook = 0,
Epub = 1, Pdf = 2); `other` covers every remaining integer value of the
Go int-typed enum. -/
inductive FileType where
  | Notebook | Epub | Pdf
  | other : Nat → FileType
deriving DecidableEq, Repr

/-- Function `FileType.String` of the rmtool package. -/
def FileType.str : FileType → String
  | .Notebook => "notebook"
  | .Epub => "epub"
  | .Pdf => "pdf"
  | .other _ => "UNKNOWN"

/-- The `Orientation` enumeration (Portrait = 0, Landscape = 1); `other`
covers every remaining integer value. -/
inductive Orientation where
  | Portrait | Landscape
  | other : Nat → Orientation
deriving DecidableEq, Repr

/-- The `TextAlign` enumeration (AlignLeft = 0, AlignJustify = 1);
`other` covers every remaining integer value. -/
inductive TextAlign where
  | AlignLeft | AlignJustify
  | other : Nat → TextAlign
deriving DecidableEq, Repr

/-- Function `defaultCoverPage` of the rmtool package. -/
def defaultCoverPage : Int := -1

/-- The `Content` struct of the rmtool package (the `.content` file).
Fields that `Validate` never examines (DummyDocument, ExtraMetadata,
FontName, LineHeight, Margins, TextScale, Transform) are omitted from
the model. -/
structure Content where
  FileType : FileType
  Orientation : Orientation
  PageCount : Int
  Pages : List String
  CoverPageNumber : Int
  TextAlignment : TextAlign
deriving DecidableEq, Repr

/-- Function `Content.Validate` of the rmtool package, check for check in source
order: file type, orientation, page count vs. page-list length, cover
page (either the -1 sentinel or between 1 and PageCount), text
alignment.  `none` means valid. -/
def Content.Validate (c : Content) : Option Err :=
  match c.FileType with
  | .Notebook | .Pdf | .Epub =>
    match c.Orientation with
    | .Portrait | .Landscape =>
      if c.PageCount ≠ (c.Pages.length : Int) then
        some (.ValidationError "pageCount does not match number of pages")
      else if c.CoverPageNumber ≠ defaultCoverPage ∧
          (c.CoverPageNumber < 1 ∨ c.CoverPageNumber > c.PageCount) then
        some (.ValidationError "cover page is not an existing page")
      else
        match c.TextAlignment with
        | .AlignLeft | .AlignJustify => none
        | .other _ => some (.ValidationError "invalid text align")
    | .other _ => some (.ValidationError "invalid orientation")
  | .other _ => some (.ValidationError "invalid file type")

/-- Modelled from the spec: the `lines.Segment` geometry sample (position,
pressure, tilt, speed, optional per-point width override); the `lines`
package is not in the available source.  Pressure and speed are scaled to
integer per-mille units. -/
structure Segment where
  x : Int
  y : Int
  pressure : Nat
  tilt : Int
  speed : Nat
  width : Nat
deriving DecidableEq, Repr

/-- Modelled from the spec: a `lines.Stroke` (brush kind, color, base
thickness, ordered segments). -/
structure Stroke where
  brushType : BrushType
  brushColor : BrushColor
  thickness : Nat
  segments : List Segment
deriving DecidableEq, Repr

/-- Modelled from the spec: a `lines.Layer` (ordered strokes, display
name). -/
structure Layer where
  name : String
  strokes : List Stroke
deriving DecidableEq, Repr

/-- Modelled from the spec: a `lines.Drawing` (ordered layers for one
page). -/
structure Drawing where
  layers : List Layer
deriving DecidableEq, Repr

/-- One mask/flat-fill stamp composited onto the canvas: position, radius,
fill color, opacity (per-mille). -/
structure Stamp where
  x : Int
  y : Int
  radius : Nat
  color : RColor
  opacity : Nat
deriving DecidableEq, Repr

/-- The per-page canvas: the background it was pre-filled with and the
ordered sequence of stamps composited over it (order is paint order). -/
structure Canvas where
  background : RColor
  stamps : List Stamp
deriving DecidableEq, Repr

/-- Modelled from the spec: sampled positions along one segment pair,
dense enough that consecutive stamps leave no gaps (one sample per pixel
step of the longer axis). -/
def samplePoints (p q : Segment) : List (Int × Int) :=
  let dx := q.x - p.x
  let dy := q.y - p.y
  let n := max dx.natAbs dy.natAbs
  (List.range (n + 1)).map fun t =>
    (p.x + dx * (t : Int) / (n : Int), p.y + dy * (t : Int) / (n : Int))

/-- Modelled from the spec: the per-variant local width rule — pressure ×
base thickness × a brush-specific scale (Marker wider, MechanicalPencil
narrower and more uniform, Fineliner and the base pen fixed width). -/
def Brush.strokeWidth (b : Brush) (press thickness : Nat) : Nat :=
  match b with
  | .Ballpoint .. => press * thickness / 1000
  | .Pencil .. => press * thickness / 1000
  | .MechanicalPencil .. => press * thickness / 2000
  | .Marker .. => press * thickness * 2 / 1000
  | .Fineliner .. => thickness
  | .Highlighter .. => thickness
  | .Paintbrush _ => press * thickness / 1000
  | .BasePen .. => thickness

/-- Modelled from the spec: local opacity from pressure and speed for the
dynamic-ink-flow brushes (Pencil, Marker, Highlighter — the latter
semi-transparent); all other variants composite at full opacity. -/
def Brush.strokeOpacity (b : Brush) (press speed : Nat) : Nat :=
  match b with
  | .Pencil .. => press * 1000 / (1000 + speed)
  | .Marker .. => press * 1000 / (1000 + speed)
  | .Highlighter .. => press * 500 / (1000 + speed)
  | _ => 1000

/-- Modelled from the spec: the common stamping contract — for each
consecutive segment pair, stamp the brush at sampled positions along the
segment with the local width (or the per-point override) and local
opacity.  Fewer than two segments produce no visible mark. -/
def renderStroke (b : Brush) (st : Stroke) : List Stamp :=
  (st.segments.zip st.segments.tail).flatMap fun pq =>
    (samplePoints pq.1 pq.2).map fun pos =>
      { x := pos.1, y := pos.2
        radius := if pq.2.width ≠ 0 then pq.2.width
                  else b.strokeWidth pq.2.pressure st.thickness
        color := b.fill
        opacity := b.strokeOpacity pq.2.pressure pq.2.speed }

/-- Modelled from the spec: `renderPNG` (the per-page raster loop of
§4.3, not in the available source): pre-fill the canvas with the palette
background, iterate layers then strokes in stored order, resolve each
stroke's brush once via `Context.loadBrush` (an error aborts the whole
page), and composite the stroke's stamps.  The second argument mirrors
the unexplained boolean passed by `drawingToPdf`. -/
def renderPNG (c : Context) (d : Drawing) (_bg : Bool) : Except String Canvas := do
  let stamps ← d.layers.foldlM (fun acc layer =>
    layer.strokes.foldlM (fun acc' st => do
      let b ← c.loadBrush st.brushType st.brushColor
      pure (acc' ++ renderStroke b st)) acc) ([] : List Stamp)
  pure { background := c.palette.Background, stamps := stamps }

/-- Modelled from the spec: the `rmtool.Document` capability (§6, not in
the available source): file kind, ordered page IDs, page→Drawing lookup
that fails for unknown IDs, display name, version, timestamp; for
PDF-backed documents the decoded source PDF pages (opaque content). -/
structure Document where
  id : String
  name : String
  version : Nat
  lastModified : Nat
  fileType : FileType
  pages : List String
  drawing : String → Except String Drawing
  srcPages : List Nat

/-- Function `Document.FileType` accessor. -/
def Document.FileType (d : Document) : FileType := d.fileType

/-- One page of the assembled PDF: an optional copied source-PDF
background (overlay mode) and the images placed on it. -/
structure FpdfPage where
  srcBackground : Option Nat
  images : List Canvas
deriving DecidableEq, Repr

/-- Model of the `gofpdf.Fpdf` builder state: document metadata set by
`setupPdf` and the pages added so far.  Font, margin, footer-text and
geometric-placement details do not affect the claims and are kept only
as the metadata fields. -/
structure Fpdf where
  title : Option String
  docVersion : Option Nat
  modified : Option Nat
  pages : List FpdfPage
deriving DecidableEq, Repr

/-- Function `defaultPageSize` of the render package. -/
def defaultPageSize : String := "A4"

/-- Function `setupPdf` of the render package: build an empty PDF; when a document
is supplied, stamp its metadata (title, version, modification time) and
install the footer. -/
def setupPdf (_pageSize : String) (d : Option Document) : Fpdf :=
  { title := d.map (·.name)
    docVersion := d.map (·.version)
    modified := d.map (·.lastModified)
    pages := [] }

/-- Function `Fpdf.AddPage`: append a fresh blank page. -/
def Fpdf.AddPage (p : Fpdf) : Fpdf :=
  { p with pages := p.pages ++ [⟨none, []⟩] }

/-- Function `Fpdf.ImageOptions` (placement): put an image on the current (last)
page. -/
def Fpdf.placeImage (p : Fpdf) (img : Canvas) : Fpdf :=
  match p.pages.getLast? with
  | none => p
  | some last =>
    { p with pages := p.pages.dropLast ++ [{ last with images := last.images ++ [img] }] }

/-- Function `drawingToPdf` of the render package: render the drawing to an
in-memory PNG (an error propagates) and place it on the current PDF page.
The random image id from `uuid.New` and the width-scaling arithmetic do
not affect the page content modelled here. -/
def drawingToPdf (c : Context) (pdf : Fpdf) (d : Drawing) : Except String Fpdf :=
  match renderPNG c d false with
  | .error e => .error e
  | .ok canvas => .ok (pdf.placeImage canvas)

/-- Function `doRenderPdfPage` of the render package: look up the page's drawing
(an error propagates), add a PDF page, and draw onto it. -/
def doRenderPdfPage (c : Context) (pdf : Fpdf) (doc : Document)
    (pageID : String) (_i : Nat) : Except String Fpdf :=
  match doc.drawing pageID with
  | .error e => .error e
  | .ok d => drawingToPdf c pdf.AddPage d

/-- The loop body of `drawingsPdf`: Go's `for i, pageID := range
d.Pages()`, processing the remaining page IDs from index `i`. -/
def drawingsPdfGo (c : Context) (d : Document) (pdf : Fpdf) (i : Nat) :
    List String → Except String Fpdf
  | [] => .ok pdf
  | pid :: rest =>
    match doRenderPdfPage c pdf d pid i with
    | .error e => .error e
    | .ok pdf' => drawingsPdfGo c d pdf' (i + 1) rest

/-- Function `drawingsPdf` of the render package: render every page ID of the
document in order; the first failure aborts. -/
def drawingsPdf (c : Context) (pdf : Fpdf) (d : Document) : Except String Fpdf :=
  drawingsPdfGo c d pdf 0 d.pages

/-- The loop body of `overlayPdf` (see `overlayPdf`). -/
def overlayPdfGo (c : Context) (d : Document) (pdf : Fpdf) (i : Nat) :
    List String → Except String Fpdf
  | [] => .ok pdf
  | pid :: rest =>
    match d.srcPages.get? i with
    | none => .error "missing source PDF page"
    | some bg =>
      match d.drawing pid with
      | .error e => .error e
      | .ok dr =>
        match renderPNG c dr false with
        | .error e => .error e
        | .ok canvas =>
          overlayPdfGo c d
            { pdf with pages := pdf.pages ++ [⟨some bg, [canvas]⟩] } (i + 1) rest

/-- Modelled from the spec: `overlayPdf` (not in the available source):
for each page ID in order, copy the corresponding source PDF page as the
page background and composite the rendered ink raster on top; a missing
source page, failed drawing lookup or failed render aborts (§4.4
atomicity). -/
def overlayPdf (c : Context) (d : Document) (pdf : Fpdf) : Except String Fpdf :=
  overlayPdfGo c d pdf 0 d.pages

/-- Byte encoding of a color for `Fpdf.Output`. -/
def RColor.enc : RColor → List Nat
  | .stdBlack => [0]
  | .stdWhite => [1]
  | .rgba r g b a => [2, r, g, b, a]

/-- Byte encoding of a stamp for `Fpdf.Output`. -/
def Stamp.enc (s : Stamp) : List Nat :=
  s.x.natAbs :: s.y.natAbs :: s.radius :: s.opacity :: s.color.enc

/-- Byte encoding of a canvas for `Fpdf.Output`. -/
def Canvas.enc (c : Canvas) : List Nat :=
  c.background.enc ++ c.stamps.flatMap Stamp.enc

/-- Byte encoding of one PDF page for `Fpdf.Output`. -/
def FpdfPage.enc (p : FpdfPage) : List Nat :=
  (match p.srcBackground with | none => [0] | some bg => [1, bg]) ++
    p.images.flatMap Canvas.enc

/-- Function `Fpdf.Output`: serialize the assembled document to the writer.  The
exact gofpdf byte format is irrelevant to the claims; the model emits a
page count followed by the page contents, so a successful output is
always non-empty. -/
def Fpdf.Output (p : Fpdf) : List Nat :=
  p.pages.length :: p.pages.flatMap FpdfPage.enc

/-- Function `renderPdf` of the render package.  The returned pair is (error, the
bytes written to the caller-supplied writer): EPUB documents are rejected
up front; PDF-backed documents go through `overlayPdf`, all others
through `drawingsPdf`; only when that succeeds is `pdf.Output(w)`
reached, so nothing is written on failure. -/
def renderPdf (c : Context) (d : Document) : Option String × List Nat :=
  if d.FileType = .Epub then
    (some ("render Pdf not supported for file type " ++ d.FileType.str), [])
  else
    let pdf := setupPdf defaultPageSize (some d)
    let r := if d.FileType = .Pdf then overlayPdf c d pdf else drawingsPdf c pdf d
    match r with
    | .error e => (some e, [])
    | .ok pdf' => (none, pdf'.Output)

/-- Function `PdfPage` of the render package: render a single drawing into a
one-page PDF — set up a metadata-less PDF, render the named page, and
write the output; there is no file-kind check on this path. -/
def PdfPage (c : Context) (d : Document) (pageID : String) : Option String × List Nat :=
  let pdf := setupPdf defaultPageSize none
  match doRenderPdfPage c pdf d pageID 0 with
  | .error e => (some e, [])
  | .ok pdf' => (none, pdf'.Output)

/-- Whether one page of a document would render successfully: the drawing
lookup succeeds and the raster render succeeds. -/
def pageOk (c : Context) (d : Document) (pid : String) : Bool :=
  match d.drawing pid with
  | .error _ => false
  | .ok dr => (renderPNG c dr false).isOk

/-- A caller palette mapping that supplies no colors of its own. -/
def emptyColors : BrushColor → Option (Option RColor) := fun _ => none

/-- Concrete palette for witnesses: white background, translucent yellow
highlighter tint, no caller-supplied brush colors. -/
def samplePalette : Palette := NewPalette .stdWhite (.rgba 255 255 0 128) emptyColors

/-- Concrete decoded sprites.json for witnesses. -/
def sampleIndex : String → Option (List Int) := fun n =>
  if n = "ballpoint" then some [0, 0, 20, 20]
  else if n = "pencil" then some [20, 0, 40, 20]
  else if n = "highlighter" then some [40, 0, 60, 20]
  else none

/-- Concrete rendering context for witnesses: spritesheet loaded, atlas
bounds 100×100. -/
def sampleCtx : Context := ⟨samplePalette, none, sampleIndex, imageRect 0 0 100 100⟩

/-- Sprite index whose ballpoint rectangle pokes outside the atlas while
its width and height still fit. -/
def oobIndex : String → Option (List Int) := fun n =>
  if n = "ballpoint" then some [90, 90, 110, 110] else none

/-- Context over `oobIndex`: the ballpoint sprite rectangle does not lie
inside the 100×100 atlas. -/
def oobCtx : Context := ⟨samplePalette, none, oobIndex, imageRect 0 0 100 100⟩

/-- A one-layer, one-stroke, two-segment Ballpoint/Black drawing. -/
def sampleDrawing : Drawing :=
  ⟨[⟨"layer 1", [⟨.Ballpoint, .Black, 2,
      [⟨0, 0, 1000, 0, 0, 0⟩, ⟨3, 4, 1000, 0, 0, 0⟩]⟩]⟩]⟩

/-- A one-page native-ink document whose page "p1" holds
`sampleDrawing`. -/
def sampleDoc : Document :=
  { id := "doc1", name := "Doc", version := 1, lastModified := 0
    fileType := .Notebook, pages := ["p1"]
    drawing := fun pid => if pid = "p1" then .ok sampleDrawing else .error "not found"
    srcPages := [] }

/-- The same document with a second page ID that has no drawing, so its
page render fails. -/
def badDoc : Document := { sampleDoc with pages := ["p1", "p2"] }

lemma except_error_of_not_ok {ε α : Type} (x : Except ε α) (h : x.isOk = false) :
    ∃ e, x = .error e := by
  cases x with
  | error e => exact ⟨e, rfl⟩
  | ok a => simp [Except.isOk, Except.toBool] at h

lemma doRenderPdfPage_isOk (c : Context) (pdf : Fpdf) (d : Document)
    (pid : String) (i : Nat) :
    (doRenderPdfPage c pdf d pid i).isOk = pageOk c d pid := by
  unfold doRenderPdfPage pageOk drawingToPdf
  cases hd : d.drawing pid with
  | error e => rfl
  | ok dr =>
    cases hr : renderPNG c dr false with
    | error e => simp [hr, Except.isOk, Except.toBool]
    | ok cv => simp [hr, Except.isOk, Except.toBool]

lemma drawingsPdfGo_ok_all (c : Context) (d : Document) :
    ∀ (l : List String) (pdf : Fpdf) (i : Nat) (out : Fpdf),
      drawingsPdfGo c d pdf i l = .ok out →
      ∀ pid ∈ l, pageOk c d pid = true := by
  intro l
  induction l with
  | nil => intro pdf i out _ pid hm; simp at hm
  | cons hd tl ih =>
    intro pdf i out h pid hm
    rw [drawingsPdfGo] at h
    cases hstep : doRenderPdfPage c pdf d hd i with
    | error e => rw [hstep] at h; cases h
    | ok pdf' =>
      rw [hstep] at h
      rcases List.mem_cons.mp hm with rfl | hmem
      · have hk := doRenderPdfPage_isOk c pdf d pid i
        rw [hstep] at hk
        simpa [Except.isOk, Except.toBool] using hk.symm
      · exact ih pdf' (i + 1) out h pid hmem

lemma overlayPdfGo_ok_all (c : Context) (d : Document) :
    ∀ (l : List String) (pdf : Fpdf) (i : Nat) (out : Fpdf),
      overlayPdfGo c d pdf i l = .ok out →
      ∀ pid ∈ l, pageOk c d pid = true := by
  intro l
  induction l with
  | nil => intro pdf i out _ pid hm; simp at hm
  | cons hd tl ih =>
    intro pdf i out h pid hm
    rw [overlayPdfGo] at h
    cases hsrc : d.srcPages.get? i with
    | none => simp only [hsrc] at h; exact Except.noConfusion h
    | some bg =>
      simp only [hsrc] at h
      cases hd' : d.drawing hd with
      | error e => simp only [hd'] at h; exact Except.noConfusion h
      | ok dr =>
        simp only [hd'] at h
        cases hr : renderPNG c dr false with
        | error e => simp only [hr] at h; exact Except.noConfusion h
        | ok cv =>
          simp only [hr] at h
          rcases List.mem_cons.mp hm with rfl | hmem
          · simp [pageOk, hd', hr, Except.isOk, Except.toBool]
          · exact ih _ (i + 1) out h pid hmem

lemma rect_intersect_in (r s : Rect) : (r.Intersect s).In s = true := by
  simp only [Rect.Intersect, Rect.In, Rect.Empty]
  split_ifs <;> simp_all [Bool.or_eq_true, decide_eq_true_eq]

/-- C3: for each built-in default color (black, gray, white),
`Palette.Color` resolves even when the key is absent from the
caller-supplied mapping; a color identifier absent from both the caller
mapping and the built-in defaults resolves to nil and makes `loadBrush`
fail with the invalid-color error for every brush kind. -/
theorem C3_color_defaults (c : Context) (bc : BrushColor)
    (habs : c.palette.colors bc = none) :
    ((bc = .Black ∨ bc = .Gray ∨ bc = .White) →
      (c.palette.Color bc).isSome = true) ∧
    ((bc ≠ .Black ∧ bc ≠ .Gray ∧ bc ≠ .White) →
      c.palette.Color bc = none ∧
      ∀ bt, c.loadBrush bt bc = .error "invalid color") := by
  constructor
  · rintro (rfl | rfl | rfl) <;> simp [Palette.Color, habs, defaultColors]
  · rintro ⟨h1, h2, h3⟩
    have hnone : c.palette.Color bc = none := by
      cases bc with
      | Black => exact absurd rfl h1
      | Gray => exact absurd rfl h2
      | White => exact absurd rfl h3
      | other n => simp [Palette.Color, habs, defaultColors]
    refine ⟨hnone, fun bt => ?_⟩
    simp [Context.loadBrush, hnone]

/-- Witness for C3 at concrete inputs: an empty caller palette still
resolves Black, while an identifier outside the defaults resolves to nil
and fails brush construction. -/
theorem C3_color_defaults_witness :
    (sampleCtx.palette.Color .Black).isSome = true ∧
    sampleCtx.palette.Color (.other 3) = none ∧
    sampleCtx.loadBrush .Ballpoint (.other 3) = .error "invalid color" := by
  have h1 := (C3_color_defaults sampleCtx .Black rfl).1 (Or.inl rfl)
  have h2 := (C3_color_defaults sampleCtx (.other 3) rfl).2
    (by refine ⟨?_, ?_, ?_⟩ <;> intro h <;> cases h)
  exact ⟨h1, h2.1, h2.2 .Ballpoint⟩

/-- C6: a document whose file kind is EPUB makes `renderPdf` fail
immediately with the descriptive unsupported-file-type error, writing no
bytes, whatever its pages contain. -/
theorem C6_epub_rejected (c : Context) (d : Document)
    (h : d.FileType = .Epub) :
    renderPdf c d = (some "render Pdf not supported for file type epub", []) := by
  simp [renderPdf, h, FileType.str]

/-- Witness for C6: the sample document switched to EPUB kind is rejected
with no output. -/
theorem C6_epub_rejected_witness :
    renderPdf sampleCtx { sampleDoc with fileType := .Epub } =
      (some "render Pdf not supported for file type epub", []) :=
  C6_epub_rejected sampleCtx { sampleDoc with fileType := .Epub } rfl

/-- C8: rendering is deterministic — two renders of an identical Drawing
with an identical Context produce identical raster output. -/
theorem C8_deterministic (c1 c2 : Context) (d1 d2 : Drawing) (bg : Bool)
    (hc : c1 = c2) (hd : d1 = d2) :
    renderPNG c1 d1 bg = renderPNG c2 d2 bg := by
  subst hc; subst hd; rfl

/-- Witness for C8 at a concrete drawing and context. -/
theorem C8_deterministic_witness :
    renderPNG sampleCtx sampleDrawing false = renderPNG sampleCtx sampleDrawing false :=
  C8_deterministic sampleCtx sampleCtx sampleDrawing sampleDrawing false rfl rfl

/-- C9: the single-page entry point `PdfPage` performs no file-kind
check: its result is independent of the document's file kind, and for an
EPUB-backed document whose requested page renders it succeeds instead of
failing with the unsupported-file-type error. -/
theorem C9_pdfpage_no_kind_check (c : Context) (d : Document) (pid : String)
    (ft : FileType) :
    (PdfPage c d pid = PdfPage c { d with fileType := ft } pid) ∧
    (d.FileType = .Epub → pageOk c d pid = true → (PdfPage c d pid).1 = none) := by
  constructor
  · rfl
  · intro _ hok
    unfold PdfPage doRenderPdfPage drawingToPdf
    unfold pageOk at hok
    cases hd : d.drawing pid with
    | error e => simp only [hd] at hok; cases hok
    | ok dr =>
      simp only [hd] at hok
      cases hr : renderPNG c dr false with
      | error e => rw [hr] at hok; simp [Except.isOk, Except.toBool] at hok
      | ok cv => simp [hd, hr]

/-- Witness for C9: an EPUB document's single page renders fine through
`PdfPage`. -/
theorem C9_pdfpage_no_kind_check_witness :
    (PdfPage sampleCtx { sampleDoc with fileType := .Epub } "p1" =
      PdfPage sampleCtx { { sampleDoc with fileType := .Epub } with fileType := .Pdf } "p1") ∧
    (PdfPage sampleCtx { sampleDoc with fileType := .Epub } "p1").1 = none := by
  have h := C9_pdfpage_no_kind_check sampleCtx
    { sampleDoc with fileType := .Epub } "p1" .Pdf
  exact ⟨h.1, h.2 rfl (by decide)⟩

/-- C10: caller-supplied palette entries take precedence: for every key
present in the caller mapping `Palette.Color` returns the stored value,
and the built-in default is consulted only when the key is absent. -/
theorem C10_palette_precedence (p : Palette) (bc : BrushColor) :
    (∀ v, p.colors bc = some v → p.Color bc = v) ∧
    (p.colors bc = none → p.Color bc = defaultColors bc) := by
  constructor
  · intro v hv; simp [Palette.Color, hv]
  · intro hv; simp [Palette.Color, hv]

/-- Witness for C10: a caller palette overriding Black wins over the
built-in default. -/
theorem C10_palette_precedence_witness :
    (NewPalette .stdWhite .stdBlack
      (fun bc => if bc = .Black then some (some (.rgba 1 2 3 255)) else none)).Color
        .Black = some (.rgba 1 2 3 255) :=
  (C10_palette_precedence _ .Black).1 (some (.rgba 1 2 3 255)) rfl

/-- Counterexample to C1 as stated: with a perfectly resolvable color
(Black), a brush kind absent from the `brushNames` table makes
`loadBrush` return an error on its own — it does not fall back to the
base pen. -/
theorem C1_counterexample :
    (sampleCtx.palette.Color .Black).isSome = true ∧
    sampleCtx.loadBrush (.other 0) .Black = .error "unsupported brush type" := by
  exact ⟨rfl, rfl⟩

/-- C1 as amended: only brush kinds that are present in the `brushNames`
table but have no dedicated Brush implementation (CalligraphyV5) fall
back to the generic base pen; a kind absent from the table fails with
the unsupported-brush-type error even when the color resolves. -/
theorem C1_amended_fallback (c : Context) (bc : BrushColor) (col : RColor)
    (h : c.palette.Color bc = some col) :
    (∀ n, c.loadBrush (.other n) bc = .error "unsupported brush type") ∧
    (∀ img, c.loadBrushMask "ballpoint" = .ok img →
      c.loadBrush .CalligraphyV5 bc = .ok (.BasePen (CreateMask img) col)) := by
  constructor
  · intro n
    simp [Context.loadBrush, h, brushNames]
  · intro img him
    simp [Context.loadBrush, h, brushNames, him, loadBasePen]

/-- Witness for the amended C1 at concrete inputs. -/
theorem C1_amended_fallback_witness :
    sampleCtx.loadBrush (.other 7) .Black = .error "unsupported brush type" ∧
    sampleCtx.loadBrush .CalligraphyV5 .Black =
      .ok (.BasePen ⟨⟨⟨0, 0, 20, 20⟩⟩⟩ .stdBlack) := by
  have h := C1_amended_fallback sampleCtx .Black .stdBlack rfl
  exact ⟨h.1 7, h.2 ⟨⟨0, 0, 20, 20⟩⟩ rfl⟩

/-- Counterexample to C2 as stated: a sprite rectangle that does not lie
within the atlas bounds (it pokes past the 100×100 atlas) is accepted by
`loadBrushMask` because only its width and height are checked. -/
theorem C2_counterexample :
    (imageRect 90 90 110 110).In oobCtx.spritesBounds = false ∧
    (oobCtx.loadBrushMask "ballpoint").isOk = true := by
  exact ⟨rfl, rfl⟩

/-- C2 as amended: `loadBrushMask` fails exactly when the canonicalized
sprite rectangle's width exceeds the atlas width or its height exceeds
the atlas height; a rectangle whose dimensions fit is accepted even when
it lies partly or wholly outside the atlas, and the sub-image actually
returned is the clipped rectangle, which does lie inside the atlas
bounds. -/
theorem C2_amended_dimension_check (c : Context) (name : String)
    (x0 y0 x1 y1 : Int) (hs : c.sheetErr = none)
    (hi : c.spriteIndex name = some [x0, y0, x1, y1]) :
    ((c.loadBrushMask name).isOk = true ↔
      (imageRect x0 y0 x1 y1).Dx ≤ c.spritesBounds.Dx ∧
      (imageRect x0 y0 x1 y1).Dy ≤ c.spritesBounds.Dy) ∧
    (∀ img, c.loadBrushMask name = .ok img →
      img.rect.In c.spritesBounds = true) := by
  unfold Context.loadBrushMask
  rw [hs, hi]
  constructor
  · by_cases hb : (imageRect x0 y0 x1 y1).Dx > c.spritesBounds.Dx ∨
        (imageRect x0 y0 x1 y1).Dy > c.spritesBounds.Dy
    · simp [hb, Except.isOk, Except.toBool]
      omega
    · simp [hb, Except.isOk, Except.toBool]
      omega
  · intro img him
    by_cases hb : (imageRect x0 y0 x1 y1).Dx > c.spritesBounds.Dx ∨
        (imageRect x0 y0 x1 y1).Dy > c.spritesBounds.Dy
    · simp [hb] at him
    · simp [hb, subImage] at him
      rw [← him]
      exact rect_intersect_in _ _

/-- Witness for the amended C2 at the out-of-bounds context: the 20×20
rectangle at (90,90) is accepted and the returned sub-image is the
clipped 10×10 corner inside the atlas. -/
theorem C2_amended_dimension_check_witness :
    (oobCtx.loadBrushMask "ballpoint").isOk = true ∧
    ((oobCtx.loadBrushMask "ballpoint").isOk = true ↔
      (imageRect 90 90 110 110).Dx ≤ oobCtx.spritesBounds.Dx ∧
      (imageRect 90 90 110 110).Dy ≤ oobCtx.spritesBounds.Dy) ∧
    (⟨⟨90, 90, 100, 100⟩⟩ : SubImg).rect.In oobCtx.spritesBounds = true := by
  have h := C2_amended_dimension_check oobCtx "ballpoint" 90 90 110 110 rfl rfl
  refine ⟨h.1.mpr (by decide), h.1, h.2 ⟨⟨90, 90, 100, 100⟩⟩ rfl⟩

/-- C7: a Highlighter-kind brush's fill is always the Palette's
highlighter tint — the stroke's recorded color never influences it: two
resolutions with different (resolvable) recorded colors give identical
brushes, and any successfully resolved highlighter's fill equals the
tint. -/
theorem C7_highlighter_tint (c : Context) (bc1 bc2 : BrushColor)
    (h1 : (c.palette.Color bc1).isSome = true)
    (h2 : (c.palette.Color bc2).isSome = true) :
    c.loadBrush .Highlighter bc1 = c.loadBrush .Highlighter bc2 ∧
    c.loadBrush .HighlighterV5 bc1 = c.loadBrush .HighlighterV5 bc2 ∧
    (∀ b, (c.loadBrush .Highlighter bc1 = .ok b ∨
           c.loadBrush .HighlighterV5 bc1 = .ok b) →
      b.fill = c.palette.Highlighter) := by
  obtain ⟨v1, hv1⟩ := Option.isSome_iff_exists.mp h1
  obtain ⟨v2, hv2⟩ := Option.isSome_iff_exists.mp h2
  refine ⟨?_, ?_, ?_⟩
  · simp [Context.loadBrush, hv1, hv2, brushNames]
  · simp [Context.loadBrush, hv1, hv2, brushNames]
  · intro b hb
    rcases hb with hb | hb <;>
    · simp [Context.loadBrush, hv1, brushNames] at hb
      cases hm : c.loadBrushMask "highlighter" with
      | error e => rw [hm] at hb; cases hb
      | ok img =>
        rw [hm] at hb
        cases hb
        rfl

/-- Witness for C7: Black- and Gray-recorded highlighter strokes resolve
to the identical brush, whose fill is the sample palette's translucent
yellow tint. -/
theorem C7_highlighter_tint_witness :
    sampleCtx.loadBrush .Highlighter .Black = sampleCtx.loadBrush .Highlighter .Gray ∧
    ∀ b, sampleCtx.loadBrush .Highlighter .Black = .ok b →
      b.fill = .rgba 255 255 0 128 := by
  have h := C7_highlighter_tint sampleCtx .Black .Gray rfl rfl
  exact ⟨h.1, fun b hb => h.2.2 b (Or.inl hb)⟩

/-- C4: `Content.Validate` returns a ValidationError whenever the page
count differs from the page-list length, and whenever the cover page is
neither the -1 sentinel nor a reference to an existing page (1-based, up
to the page count); a Content with valid file kind, orientation and text
alignment, matching page count, and an unset or in-range cover page
passes. -/
theorem C4_content_validate (c : Content) :
    (c.PageCount ≠ (c.Pages.length : Int) → c.Validate.isSome = true) ∧
    (c.CoverPageNumber ≠ -1 →
      (c.CoverPageNumber < 1 ∨ c.CoverPageNumber > c.PageCount) →
      c.Validate.isSome = true) ∧
    ((c.FileType = .Notebook ∨ c.FileType = .Epub ∨ c.FileType = .Pdf) →
      (c.Orientation = .Portrait ∨ c.Orientation = .Landscape) →
      (c.TextAlignment = .AlignLeft ∨ c.TextAlignment = .AlignJustify) →
      c.PageCount = (c.Pages.length : Int) →
      (c.CoverPageNumber = -1 ∨
        (1 ≤ c.CoverPageNumber ∧ c.CoverPageNumber ≤ c.PageCount)) →
      c.Validate = none) := by
  obtain ⟨ft, ori, pc, pages, cover, ta⟩ := c
  refine ⟨?_, ?_, ?_⟩
  · intro hne
    cases ft <;> cases ori <;>
      simp_all [Content.Validate, defaultCoverPage]
  · intro hcover hrange
    cases ft <;> cases ori <;>
      simp_all [Content.Validate, defaultCoverPage] <;>
      (split <;> simp)
  · rintro hft hori hta hpc hcov
    rcases hft with rfl | rfl | rfl <;>
      rcases hori with rfl | rfl <;>
      rcases hta with rfl | rfl <;>
      · simp_all [Content.Validate, defaultCoverPage]
        intro h1
        omega

/-- Witness for C4 at the three concrete Contents named by the spec: a
3-count/2-page Content fails, a cover page 5 on 3 pages fails, and a
well-formed Content passes. -/
theorem C4_content_validate_witness :
    (Content.Validate ⟨.Notebook, .Portrait, 3, ["a", "b"], -1, .AlignLeft⟩).isSome
        = true ∧
    (Content.Validate ⟨.Notebook, .Portrait, 3, ["a", "b", "c"], 5, .AlignLeft⟩).isSome
        = true ∧
    Content.Validate ⟨.Notebook, .Portrait, 3, ["a", "b", "c"], 2, .AlignLeft⟩
        = none := by
  refine ⟨(C4_content_validate _).1 (by decide),
          (C4_content_validate _).2.1 (by decide) (by decide),
          (C4_content_validate _).2.2 (Or.inl rfl) (Or.inl rfl) (Or.inl rfl)
            (by decide) (by decide)⟩

/-- C5: full-document PDF rendering is atomic — when `renderPdf` reports
an error the writer received nothing; when any bytes reach the writer,
every page of the document rendered successfully (and the call reported
no error); and a document containing any failing page makes `renderPdf`
report an error. -/
theorem C5_atomic_pdf (c : Context) (d : Document) :
    ((renderPdf c d).1.isSome = true → (renderPdf c d).2 = []) ∧
    ((renderPdf c d).2 ≠ [] → (renderPdf c d).1 = none ∧
      ∀ pid ∈ d.pages, pageOk c d pid = true) ∧
    (∀ pid ∈ d.pages, pageOk c d pid = false →
      (renderPdf c d).1.isSome = true) := by
  by_cases hf : d.FileType = .Epub
  · refine ⟨?_, ?_, ?_⟩ <;> simp [renderPdf, hf, FileType.str]
  · by_cases hp : d.FileType = .Pdf
    · cases hr : overlayPdf c d (setupPdf defaultPageSize (some d)) with
      | error e =>
        refine ⟨?_, ?_, ?_⟩ <;> simp [renderPdf, hf, hp, hr]
      | ok pdfOut =>
        have hall := overlayPdfGo_ok_all c d d.pages
          (setupPdf defaultPageSize (some d)) 0 pdfOut hr
        refine ⟨?_, ?_, ?_⟩
        · simp [renderPdf, hf, hp, hr]
        · intro _
          refine ⟨by simp [renderPdf, hf, hp, hr], hall⟩
        · intro pid hm hbad
          exact absurd (hall pid hm) (by simp [hbad])
    · cases hr : drawingsPdf c (setupPdf defaultPageSize (some d)) d with
      | error e =>
        refine ⟨?_, ?_, ?_⟩ <;> simp [renderPdf, hf, hp, hr]
      | ok pdfOut =>
        have hall := drawingsPdfGo_ok_all c d d.pages
          (setupPdf defaultPageSize (some d)) 0 pdfOut hr
        refine ⟨?_, ?_, ?_⟩
        · simp [renderPdf, hf, hp, hr]
        · intro _
          refine ⟨by simp [renderPdf, hf, hp, hr], hall⟩
        · intro pid hm hbad
          exact absurd (hall pid hm) (by simp [hbad])

/-- Witness for C5: a document whose second page has no drawing makes
`renderPdf` fail with nothing written. -/
theorem C5_atomic_pdf_witness :
    (renderPdf sampleCtx badDoc).1.isSome = true ∧
    (renderPdf sampleCtx badDoc).2 = [] := by
  have h := C5_atomic_pdf sampleCtx badDoc
  have hbad : pageOk sampleCtx badDoc "p2" = false := by decide
  have hm : "p2" ∈ badDoc.pages := by simp [badDoc, sampleDoc]
  have herr := h.2.2 "p2" hm hbad
  exact ⟨herr, h.1 herr⟩

end RMTool
